import Mathlib

/-!
Shallow embedding of `plugin_viewer.py` (PluginViewer, a Textual app that
loads a list of plugin records, filters them by a substring query and sorts
them by a column key).  Records are modelled as five optional string fields
(the only keys the program ever reads); `dict.get(key, "")` becomes an
`Option.getD ""` lookup.  Python's stable `list.sort(key=..., reverse=r)` is
modelled by insertion sort (stable, ascending) with the descending case
expressed, as CPython implements it, as reverse / stable ascending sort /
reverse.  String comparison in Python is lexicographic by code point, which
coincides with the lexicographic order on the underlying character lists
used here; `str.lower()` is modelled per character (the two agree on the
ASCII data this program handles).  All string operations are written as
structural recursions on the character list so that every definition
evaluates by kernel reduction.
-/

/-- A plugin record: a JSON object of which the program only ever reads the
keys "Plugin Type", "Name", "Manufacturer", "Description" and the misspelled
"Invsestigate".  A `none` field models an absent key. -/
structure Plugin where
  pluginType : Option String
  name : Option String
  manufacturer : Option String
  description : Option String
  invsestigate : Option String
deriving DecidableEq

/-- Dictionary lookup on the five keys the program reads; any other key is
absent. -/
def Plugin.lookup (p : Plugin) (field : String) : Option String :=
  if field = "Plugin Type" then p.pluginType
  else if field = "Name" then p.name
  else if field = "Manufacturer" then p.manufacturer
  else if field = "Description" then p.description
  else if field = "Invsestigate" then p.invsestigate
  else none

/-- `plugin.get(field, "")`: dictionary lookup defaulting to the empty
string. -/
def Plugin.get (p : Plugin) (field : String) : String :=
  (p.lookup field).getD ""

/-- Python's `str.lower()` (per-character lowercasing; agrees with Python on
ASCII text). -/
def str_lower (s : String) : String :=
  String.mk (s.data.map Char.toLower)

/-- Python whitespace characters, as recognized by `str.strip()`. -/
def pySpace (c : Char) : Bool :=
  c = ' ' || c = '\t' || c = '\n' || c = '\r' || c = '\x0b' || c = '\x0c'

/-- Whether the first list is a leading run of the second. -/
def leadsWith : List Char → List Char → Bool
  | [], _ => true
  | _ :: _, [] => false
  | a :: as, b :: bs => a = b && leadsWith as bs

/-- Whether the first list occurs contiguously somewhere in the second. -/
def occursIn (n : List Char) : List Char → Bool
  | [] => leadsWith n []
  | b :: bs => leadsWith n (b :: bs) || occursIn n bs

/-- Python's `needle in hay` substring test on strings. -/
def str_contains (hay needle : String) : Bool :=
  occursIn needle.data hay.data

/-- Python's `" ".join(l)`. -/
def join_spaces : List String → String
  | [] => ""
  | [s] => s
  | s :: rest => s ++ " " ++ join_spaces rest

/-- Lexicographic (code-point) strict comparison of character lists, Python's
string `<`. -/
def charListLt : List Char → List Char → Bool
  | [], [] => false
  | [], _ :: _ => true
  | _ :: _, [] => false
  | a :: as, b :: bs => a < b || (a = b && charListLt as bs)

/-- Python's `a < b` on strings. -/
def str_lt (a b : String) : Bool :=
  charListLt a.data b.data

/-- Python's `a <= b` on strings (total order: `a ≤ b ↔ ¬ b < a`). -/
def str_le (a b : String) : Bool :=
  !(str_lt b a)

/-- The `key_map` dictionary of `get_sort_value` and
`on_data_table_column_selected`, applied with `dict.get(k, "Name")`:
internal sort keys to record field names, any unknown key giving "Name". -/
def key_map (k : String) : String :=
  if k = "type" then "Plugin Type"
  else if k = "name" then "Name"
  else if k = "manufacturer" then "Manufacturer"
  else if k = "description" then "Description"
  else if k = "investigate" then "Invsestigate"
  else "Name"

/-- `get_sort_value` from `sort_plugins`: the lowercased string value of the
field selected by the current sort key. -/
def get_sort_value (sortKey : String) (p : Plugin) : String :=
  str_lower (p.get (key_map sortKey))

/-- The searchable text of `filter_plugins`: the five fields joined with
single spaces, in the order the code lists them (Name, Manufacturer,
Description, Plugin Type, Invsestigate), then lowercased. -/
def searchable_text (p : Plugin) : String :=
  str_lower (join_spaces
    [p.name.getD "", p.manufacturer.getD "", p.description.getD "",
     p.pluginType.getD "", p.invsestigate.getD ""])

/-- Key comparison used by the sort: `key a ≤ key b` on strings. -/
def pluginLe (key : Plugin → String) (a b : Plugin) : Prop :=
  str_le (key a) (key b) = true

instance pluginLeDec (key : Plugin → String) : DecidableRel (pluginLe key) :=
  fun a b => instDecidableEqBool (str_le (key a) (key b)) true

/-- Python's stable `list.sort(key=key, reverse=rev)`: a stable ascending
sort for `rev = false`; for `rev = true` CPython reverses, stable-sorts
ascending, and reverses again, giving a descending order in which equal keys
keep their original relative order. -/
def py_stable_sort (key : Plugin → String) (rev : Bool) (l : List Plugin) :
    List Plugin :=
  if rev then (List.insertionSort (pluginLe key) l.reverse).reverse
  else List.insertionSort (pluginLe key) l

/-- The list-level core of `sort_plugins`: `filtered.sort(key=get_sort_value,
reverse=sort_reverse)` followed by `filtered.reverse()` when `sort_reverse`
is set. -/
def sort_list (sortKey : String) (rev : Bool) (l : List Plugin) : List Plugin :=
  let sorted := py_stable_sort (get_sort_value sortKey) rev l
  if rev then sorted.reverse else sorted

/-- The list-level core of `filter_plugins`: everything on a blank query,
otherwise the records whose searchable text contains the lowercased query,
in dataset order. -/
def filter_list (plugins : List Plugin) (query : String) : List Plugin :=
  if query.data.all pySpace then plugins
  else plugins.filter fun p => str_contains (searchable_text p) (str_lower query)

/-- The mutable state of the `PluginViewer` app: the dataset, the derived
filtered list, the sort settings, the query, and the observable UI surfaces
(table rows, stats line, window title, notifications). -/
structure AppState where
  plugins : List Plugin
  filtered_plugins : List Plugin
  sort_key : String
  sort_reverse : Bool
  search_query : String
  table_rows : List (String × String × String × String × String)
  stats : String
  title : String
  notifications : List String
deriving DecidableEq

/-- The state set up by `__init__` and `compose`: empty lists, sort key
"name" ascending, empty query, and the static "Showing 0 of 0 plugins"
stats widget. -/
def init_state : AppState :=
  { plugins := []
    filtered_plugins := []
    sort_key := "name"
    sort_reverse := false
    search_query := ""
    table_rows := []
    stats := "Showing 0 of 0 plugins"
    title := ""
    notifications := [] }

/-- One table row as added by `populate_table`: the five `plugin.get`
reads, in column order. -/
def render_row (p : Plugin) : String × String × String × String × String :=
  (p.get "Plugin Type", p.get "Name", p.get "Manufacturer",
   p.get "Description", p.get "Invsestigate")

/-- The stats line text `f"Showing {shown} of {total} plugins"`. -/
def stats_line (shown total : Nat) : String :=
  s!"Showing {shown} of {total} plugins"

/-- `populate_table`: clear the table, add one row per filtered record, and
update the stats line. -/
def populate_table (s : AppState) : AppState :=
  { s with
    table_rows := s.filtered_plugins.map render_row
    stats := stats_line s.filtered_plugins.length s.plugins.length }

/-- `sort_plugins`: return unchanged on an empty filtered list, else sort
the filtered list in place (stable sort, plus a whole-list reversal when
descending) and repopulate the table. -/
def sort_plugins (s : AppState) : AppState :=
  if s.filtered_plugins = [] then s
  else populate_table
    { s with filtered_plugins := sort_list s.sort_key s.sort_reverse s.filtered_plugins }

/-- `filter_plugins`: record the query, recompute the filtered list, then
sort (which also repopulates the table). -/
def filter_plugins (s : AppState) (query : String) : AppState :=
  sort_plugins
    { s with search_query := query, filtered_plugins := filter_list s.plugins query }

/-- `on_input_changed` (live search): re-filter with the new text. -/
def on_input_changed (s : AppState) (value : String) : AppState :=
  filter_plugins s value

/-- `on_input_submitted`: identical re-application of the filter. -/
def on_input_submitted (s : AppState) (value : String) : AppState :=
  filter_plugins s value

/-- Python's `str.replace(" ", "")`. -/
def remove_spaces (str : String) : String :=
  String.mk (str.data.filter fun c => c ≠ ' ')

/-- `on_data_table_column_selected`: map the clicked column key to its label
(unknown keys giving "Name"), normalize the label by lowercasing and
deleting spaces, toggle the direction when this equals the current sort key
and otherwise select it ascending, then re-sort. -/
def on_data_table_column_selected (s : AppState) (column_key : String) : AppState :=
  let column_name := key_map column_key
  let normalized := remove_spaces (str_lower column_name)
  let s1 :=
    if s.sort_key = normalized then { s with sort_reverse := !s.sort_reverse }
    else { s with sort_key := normalized, sort_reverse := false }
  sort_plugins s1

/-- `load_data`: on a successful load install the dataset and a
"Plugin Viewer - N plugins" title; on any exception fall back to empty
lists, the degraded title, and an error notification. -/
def load_data (s : AppState) (src : Except String (List Plugin)) : AppState :=
  match src with
  | Except.ok ps =>
    { s with
      plugins := ps
      filtered_plugins := ps
      title := "Plugin Viewer - " ++ toString ps.length ++ " plugins" }
  | Except.error e =>
    { s with
      plugins := []
      filtered_plugins := []
      title := "Plugin Viewer - Error loading data"
      notifications := s.notifications ++ ["Error loading plugins: " ++ e] }

/-- `on_mount`: load the data (the `src` argument stands for the outcome of
reading `Plugins.json`), set up the table, and populate it. -/
def on_mount (s : AppState) (src : Except String (List Plugin)) : AppState :=
  populate_table (load_data s src)

/-- `action_clear_search`: set the search input's value to the empty string,
reset the filtered list to the full dataset, and re-sort.  Textual's `Input.
value` is reactive, so the programmatic write also delivers an
`Input.Changed("")` message, handled next by `on_input_changed`; the final
state after the event settles is modelled here. -/
def action_clear_search (s : AppState) : AppState :=
  on_input_changed (sort_plugins { s with filtered_plugins := s.plugins }) ""

/-- The record `{"Name": "Beta", "Manufacturer": "X"}` of the spec's concrete
scenario. -/
def betaX : Plugin := ⟨none, some "Beta", some "X", none, none⟩

/-- The record `{"Name": "alpha", "Manufacturer": "Y"}` of the spec's concrete
scenario. -/
def alphaY : Plugin := ⟨none, some "alpha", some "Y", none, none⟩

/-- A record `{"Plugin Type": "VST", "Name": "Synth"}`, used to compare the
two field-concatenation orders. -/
def vstSynth : Plugin := ⟨some "VST", some "Synth", none, none, none⟩

/-- A record `{"Plugin Type": "B", "Name": "a"}`. -/
def typeB : Plugin := ⟨some "B", some "a", none, none, none⟩

/-- A record `{"Plugin Type": "A", "Name": "b"}`. -/
def typeA : Plugin := ⟨some "A", some "b", none, none, none⟩

/-- The state of the running app after mounting on the two-record scenario
dataset. -/
def demo_state : AppState :=
  on_mount init_state (Except.ok [betaX, alphaY])

/-- Modelled from the spec claim for comparison with `searchable_text`: the
five fields concatenated with single-space separators in the order type,
name, manufacturer, description, investigate-flag (missing fields
contributing empty strings), lowercased. -/
def spec_searchable_text (p : Plugin) : String :=
  str_lower (join_spaces
    [p.pluginType.getD "", p.name.getD "", p.manufacturer.getD "",
     p.description.getD "", p.invsestigate.getD ""])

/-- Replace every absent field of a record by the empty string. -/
def fill_missing (p : Plugin) : Plugin :=
  ⟨some (p.pluginType.getD ""), some (p.name.getD ""),
   some (p.manufacturer.getD ""), some (p.description.getD ""),
   some (p.invsestigate.getD "")⟩

/-- The visible-subset invariant: the filtered list holds exactly the
records of the dataset matching the current query (same multiset; the order
may differ because sorting reorders it). -/
def view_inv (s : AppState) : Prop :=
  s.filtered_plugins.Perm (filter_list s.plugins s.search_query)

/-- `charListLt` agrees with the lexicographic order `List.Lex (· < ·)` on
character lists. -/
theorem charListLt_iff_lex :
    ∀ a b : List Char, charListLt a b = true ↔ List.Lex (· < ·) a b := by
  intro a
  induction a with
  | nil =>
    intro b
    cases b with
    | nil => simp [charListLt]
    | cons c l => exact iff_of_true rfl List.Lex.nil
  | cons x xs ih =>
    intro b
    cases b with
    | nil =>
      exact iff_of_false (by simp [charListLt]) (fun h => nomatch h)
    | cons y ys =>
      simp only [charListLt, Bool.or_eq_true, Bool.and_eq_true, decide_eq_true_eq]
      constructor
      · rintro (hlt | ⟨heq, hrec⟩)
        · exact List.Lex.rel hlt
        · exact heq ▸ List.Lex.cons ((ih ys).1 hrec)
      · intro h
        cases h with
        | cons h => exact Or.inr ⟨rfl, (ih ys).2 h⟩
        | rel h => exact Or.inl h

/-- `str_lt` agrees with the library order on `String`. -/
theorem str_lt_iff (a b : String) : str_lt a b = true ↔ a < b := by
  rw [String.lt_iff_toList_lt]
  exact charListLt_iff_lex a.data b.data

/-- `str_le` agrees with the library order on `String`. -/
theorem str_le_iff (a b : String) : str_le a b = true ↔ a ≤ b := by
  rw [str_le, Bool.not_eq_true', ← Bool.not_eq_true, str_lt_iff, not_lt]

instance pluginLeTotal (key : Plugin → String) : IsTotal Plugin (pluginLe key) :=
  ⟨fun a b => by
    rcases le_total (key a) (key b) with h | h
    · exact Or.inl ((str_le_iff _ _).2 h)
    · exact Or.inr ((str_le_iff _ _).2 h)⟩

instance pluginLeTrans (key : Plugin → String) : IsTrans Plugin (pluginLe key) :=
  ⟨fun _ _ _ hab hbc =>
    (str_le_iff _ _).2 (le_trans ((str_le_iff _ _).1 hab) ((str_le_iff _ _).1 hbc))⟩

/-- The sort permutes its input, whatever the direction. -/
theorem sort_list_perm (k : String) (rev : Bool) (l : List Plugin) :
    (sort_list k rev l).Perm l := by
  cases rev with
  | false => simpa [sort_list, py_stable_sort] using
      List.perm_insertionSort (pluginLe (get_sort_value k)) l
  | true =>
    simp only [sort_list, py_stable_sort, if_true, List.reverse_reverse]
    exact (List.perm_insertionSort _ _).trans (List.reverse_perm l)

/-- Sorting an empty list gives an empty list. -/
theorem sort_list_nil (k : String) (rev : Bool) : sort_list k rev [] = [] := by
  cases rev <;> rfl

/-- `sort_plugins` leaves the dataset untouched. -/
theorem sort_plugins_plugins (s : AppState) :
    (sort_plugins s).plugins = s.plugins := by
  unfold sort_plugins
  split <;> rfl

/-- `sort_plugins` leaves the sort key untouched. -/
theorem sort_plugins_sort_key (s : AppState) :
    (sort_plugins s).sort_key = s.sort_key := by
  unfold sort_plugins
  split <;> rfl

/-- `sort_plugins` leaves the sort direction untouched. -/
theorem sort_plugins_sort_reverse (s : AppState) :
    (sort_plugins s).sort_reverse = s.sort_reverse := by
  unfold sort_plugins
  split <;> rfl

/-- `sort_plugins` leaves the query untouched. -/
theorem sort_plugins_search_query (s : AppState) :
    (sort_plugins s).search_query = s.search_query := by
  unfold sort_plugins
  split <;> rfl

/-- `sort_plugins` permutes the filtered list. -/
theorem sort_plugins_filtered_perm (s : AppState) :
    (sort_plugins s).filtered_plugins.Perm s.filtered_plugins := by
  unfold sort_plugins
  split
  · exact List.Perm.refl _
  · exact sort_list_perm _ _ _


/-- Inserting `x` into a list keeps, among the records whose key is a given
value, `x` in front of all of them and the rest in their previous order:
the elements skipped over all have a strictly smaller key. -/
theorem filter_orderedInsert_key (key : Plugin → String) (v : String) (x : Plugin) :
    ∀ l : List Plugin,
      (List.orderedInsert (pluginLe key) x l).filter (fun p => key p = v) =
        if key x = v then x :: l.filter (fun p => key p = v)
        else l.filter (fun p => key p = v) := by
  intro l
  induction l with
  | nil =>
    by_cases h : key x = v <;> simp [List.orderedInsert, List.filter, h]
  | cons b t ih =>
    by_cases hxb : pluginLe key x b
    · rw [List.orderedInsert, if_pos hxb]
      by_cases h : key x = v <;> by_cases hb : key b = v <;>
        simp [List.filter_cons, h, hb]
    · rw [List.orderedInsert, if_neg hxb]
      have hlt : key b < key x := by
        rcases lt_or_le (key b) (key x) with h | h
        · exact h
        · exact absurd ((str_le_iff _ _).2 h) hxb
      by_cases h : key x = v
      · have hb : key b ≠ v := fun e => (ne_of_lt hlt) (e.trans h.symm)
        simp [List.filter_cons, hb, ih, h]
      · by_cases hb : key b = v <;> simp [List.filter_cons, hb, ih, h]

/-- Stability of the ascending sort: the records carrying any fixed key
value come out in exactly the order they went in. -/
theorem insertionSort_filter_key (key : Plugin → String) (v : String) :
    ∀ l : List Plugin,
      (List.insertionSort (pluginLe key) l).filter (fun p => key p = v) =
        l.filter (fun p => key p = v) := by
  intro l
  induction l with
  | nil => rfl
  | cons x t ih =>
    rw [List.insertionSort, filter_orderedInsert_key]
    by_cases h : key x = v <;> simp [List.filter_cons, h, ih]

/-- Claim C5: for every subsequence `S` and sort field `k`, the ascending
sort is non-decreasing by the lowercased key, is stable (records with equal
keys keep their input order), and a record missing the selected field gets
the empty-string key, which compares at or below every key. -/
theorem C5_sort_ascending_stable (S : List Plugin) (k : String) :
    List.Sorted (pluginLe (get_sort_value k)) (sort_list k false S) ∧
    (∀ v : String,
      (sort_list k false S).filter (fun p => get_sort_value k p = v) =
        S.filter (fun p => get_sort_value k p = v)) ∧
    (∀ p : Plugin, p.lookup (key_map k) = none → get_sort_value k p = "") ∧
    (∀ p : Plugin, str_le "" (get_sort_value k p) = true) := by
  refine ⟨?_, ?_, ?_, ?_⟩
  · simpa [sort_list, py_stable_sort] using
      List.sorted_insertionSort (pluginLe (get_sort_value k)) S
  · intro v
    simpa [sort_list, py_stable_sort] using
      insertionSort_filter_key (get_sort_value k) v S
  · intro p h
    simp only [get_sort_value, Plugin.get, h, Option.getD_none]
    rfl
  · intro p
    rw [str_le_iff, String.le_iff_toList_le]
    simp only [String.toList_empty]
    exact List.nil_le

/-- Witness for C5 at the concrete scenario dataset, with the missing-field
clause instantiated at the absent "Description" field of `betaX`. -/
theorem C5_sort_ascending_stable_witness :
    ((sort_list "description" false [betaX, alphaY]).filter
        (fun p => get_sort_value "description" p = "") =
      [betaX, alphaY].filter (fun p => get_sort_value "description" p = "")) ∧
    get_sort_value "description" betaX = "" :=
  ⟨(C5_sort_ascending_stable [betaX, alphaY] "description").2.1 "",
   (C5_sort_ascending_stable [betaX, alphaY] "description").2.2.1 betaX rfl⟩

/-- Counterexample to claim C2: the code concatenates the fields in the
order name, manufacturer, description, type, investigate, not the claimed
type-first order.  On the record with type "VST" and name "Synth", the
query "vst s" is a substring of the claimed concatenation but the filter
rejects the record. -/
theorem C2_concat_order_counterexample :
    filter_list [vstSynth] "vst s" = [] ∧
    str_contains (spec_searchable_text vstSynth) (str_lower "vst s") = true := by
  decide

/-- Claim C2 as amended: blank queries return the dataset unchanged;
otherwise a record is kept iff the lowercased query occurs in the lowercased
space-joined concatenation of its five fields in the order name,
manufacturer, description, type, investigate (missing fields contributing
empty strings), and the kept records form a sublist of the dataset (original
order preserved). -/
theorem C2_filter_amended (D : List Plugin) (q : String) (p : Plugin) :
    (q.data.all pySpace = true → filter_list D q = D) ∧
    (q.data.all pySpace = false →
      ((p ∈ filter_list D q ↔
          p ∈ D ∧ str_contains (searchable_text p) (str_lower q) = true) ∧
        List.Sublist (filter_list D q) D)) := by
  constructor
  · intro h
    simp [filter_list, h]
  · intro h
    constructor
    · simp [filter_list, h, List.mem_filter]
    · simp only [filter_list, h, Bool.false_eq_true, if_false]
      exact List.filter_sublist D

/-- Witness for C2 at the spec's concrete scenario: a blank query returns
everything, and the query "y" keeps `alphaY` because its manufacturer
contains "y". -/
theorem C2_filter_amended_witness :
    filter_list [betaX, alphaY] " " = [betaX, alphaY] ∧
    (alphaY ∈ filter_list [betaX, alphaY] "y" ↔
      alphaY ∈ [betaX, alphaY] ∧
        str_contains (searchable_text alphaY) (str_lower "y") = true) :=
  ⟨(C2_filter_amended [betaX, alphaY] " " alphaY).1 (by decide),
   ((C2_filter_amended [betaX, alphaY] "y" alphaY).2 (by decide)).1⟩

/-- Claim C1 fails on the code: `sort_plugins` runs the stable sort with
`reverse=True` and then reverses the whole list again, so toggling the
direction on Name over the dataset [Beta(X), alpha(Y)] leaves the ascending
order [alpha, Beta] (the two reversals cancel), while the claimed
reverse-of-ascending behavior would give [Beta, alpha]. -/
theorem C1_descending_is_double_reversed :
    (on_data_table_column_selected (on_input_changed demo_state "")
        "name").filtered_plugins = [alphaY, betaX] ∧
    (on_data_table_column_selected (on_input_changed demo_state "")
        "name").sort_reverse = true ∧
    (sort_list "name" false
        (on_input_changed demo_state "").filtered_plugins).reverse =
      [betaX, alphaY] := by
  decide

/-- Claim C3 fails on the code for the Plugin Type and Investigate columns:
the handler normalizes their labels to "plugintype" and "invsestigate",
keys that `get_sort_value` does not recognize, so it sorts by Name instead.
On records with types B/A and names a/b, clicking the type column keeps
name order [typeB, typeA], while an actual sort by the lowercased Plugin
Type key would give [typeA, typeB]. -/
theorem C3_type_column_sorts_by_name :
    (on_data_table_column_selected (on_mount init_state
        (Except.ok [typeB, typeA])) "type").sort_key = "plugintype" ∧
    (on_data_table_column_selected (on_mount init_state
        (Except.ok [typeB, typeA])) "type").filtered_plugins = [typeB, typeA] ∧
    (on_data_table_column_selected (on_mount init_state
        (Except.ok [typeB, typeA])) "investigate").sort_key = "invsestigate" ∧
    List.insertionSort (pluginLe fun p => str_lower (p.get "Plugin Type"))
        [typeB, typeA] = [typeA, typeB] := by
  decide

/-- Claim C4 fails on the code when the filtered result is empty:
`sort_plugins` returns early on an empty list, so `populate_table` never
runs and the table rows and the stats line keep their previous (now stale)
contents instead of being cleared and reading "Showing 0 of 1 plugins". -/
theorem C4_empty_result_stale_view :
    (on_input_changed (on_mount init_state
        (Except.ok [alphaY])) "zzz").filtered_plugins = [] ∧
    (on_input_changed (on_mount init_state
        (Except.ok [alphaY])) "zzz").table_rows = [render_row alphaY] ∧
    (on_input_changed (on_mount init_state
        (Except.ok [alphaY])) "zzz").stats = "Showing 1 of 1 plugins" := by
  decide

/-- What `action_clear_search` computes, in closed form: the query becomes
empty and the filtered list becomes the (sorted) full dataset; on an empty
dataset the early return of `sort_plugins` skips `populate_table`. -/
theorem clear_search_eq (s : AppState) :
    action_clear_search s =
      if s.plugins = [] then
        { s with search_query := "", filtered_plugins := s.plugins }
      else
        populate_table { s with
          search_query := ""
          filtered_plugins := sort_list s.sort_key s.sort_reverse s.plugins } := by
  have hfl : filter_list s.plugins "" = s.plugins := rfl
  by_cases hp : s.plugins = []
  · have hfl0 : filter_list [] "" = ([] : List Plugin) := rfl
    rw [if_pos hp]
    unfold action_clear_search on_input_changed filter_plugins sort_plugins
    simp [hp, hfl0]
  · rw [if_neg hp]
    unfold action_clear_search on_input_changed filter_plugins sort_plugins populate_table
    simp [hp, hfl]

/-- Claim C6: clearing the search resets the query, restores the full
dataset (sorted with the current settings) as the visible subset, re-renders
the table and the stats line, and preserves the dataset and the sort
field/direction.  The hypothesis records that an empty dataset is displayed
as an empty table with "Showing 0 of 0 plugins", which holds in every
reachable state. -/
theorem C6_clear_search_preserves_sort (s : AppState)
    (hview : s.plugins = [] → s.table_rows = [] ∧ s.stats = stats_line 0 0) :
    (action_clear_search s).search_query = "" ∧
    (action_clear_search s).plugins = s.plugins ∧
    (action_clear_search s).sort_key = s.sort_key ∧
    (action_clear_search s).sort_reverse = s.sort_reverse ∧
    (action_clear_search s).filtered_plugins =
      sort_list s.sort_key s.sort_reverse s.plugins ∧
    (action_clear_search s).table_rows =
      ((action_clear_search s).filtered_plugins).map render_row ∧
    (action_clear_search s).stats =
      stats_line (action_clear_search s).filtered_plugins.length s.plugins.length := by
  rw [clear_search_eq]
  by_cases hp : s.plugins = []
  · obtain ⟨hrows, hstats⟩ := hview hp
    rw [if_pos hp]
    refine ⟨rfl, rfl, rfl, rfl, ?_, ?_, ?_⟩
    · simp [hp, sort_list_nil]
    · simp [hp, hrows]
    · simp [hp, hstats]
  · rw [if_neg hp]
    exact ⟨rfl, rfl, rfl, rfl, rfl, rfl, rfl⟩

/-- Witness for C6 at the mounted two-record scenario state. -/
theorem C6_clear_search_preserves_sort_witness :
    (action_clear_search demo_state).search_query = "" ∧
    (action_clear_search demo_state).sort_key = demo_state.sort_key ∧
    (action_clear_search demo_state).sort_reverse = demo_state.sort_reverse :=
  ⟨(C6_clear_search_preserves_sort demo_state (by decide)).1,
   (C6_clear_search_preserves_sort demo_state (by decide)).2.2.1,
   (C6_clear_search_preserves_sort demo_state (by decide)).2.2.2.1⟩

/-- Claim C7: every operation (search text change, column selection, clear
search) keeps the dataset unchanged and keeps the visible subset equal, as a
multiset, to the dataset filtered by the current query. -/
theorem column_selected_eq (s : AppState) (ck : String) :
    on_data_table_column_selected s ck =
      sort_plugins
        (if s.sort_key = remove_spaces (str_lower (key_map ck)) then
          { s with sort_reverse := !s.sort_reverse }
        else
          { s with
            sort_key := remove_spaces (str_lower (key_map ck))
            sort_reverse := false }) := rfl

theorem C7_visible_subset_invariant (s : AppState) (q ck : String)
    (hinv : view_inv s) :
    ((on_input_changed s q).plugins = s.plugins ∧
      view_inv (on_input_changed s q)) ∧
    ((on_data_table_column_selected s ck).plugins = s.plugins ∧
      view_inv (on_data_table_column_selected s ck)) ∧
    ((action_clear_search s).plugins = s.plugins ∧
      view_inv (action_clear_search s)) := by
  have hfl : filter_list s.plugins "" = s.plugins := rfl
  refine ⟨⟨?_, ?_⟩, ⟨?_, ?_⟩, ⟨?_, ?_⟩⟩
  · show (sort_plugins _).plugins = s.plugins
    rw [sort_plugins_plugins]
  · show view_inv (sort_plugins _)
    unfold view_inv
    rw [sort_plugins_plugins, sort_plugins_search_query]
    exact sort_plugins_filtered_perm _
  · rw [column_selected_eq]
    split <;> rw [sort_plugins_plugins]
  · rw [column_selected_eq]
    unfold view_inv
    split <;>
      rw [sort_plugins_plugins, sort_plugins_search_query] <;>
      exact (sort_plugins_filtered_perm _).trans hinv
  · rw [clear_search_eq]
    split <;> rfl
  · unfold view_inv
    rw [clear_search_eq]
    split
    · show s.plugins.Perm (filter_list s.plugins "")
      rw [hfl]
    · show (sort_list s.sort_key s.sort_reverse s.plugins).Perm
        (filter_list s.plugins "")
      rw [hfl]
      exact sort_list_perm _ _ _
  
/-- Witness for C7 at the mounted two-record scenario state with query
"y". -/
theorem C7_visible_subset_invariant_witness :
    (action_clear_search demo_state).plugins = demo_state.plugins ∧
    view_inv (on_input_changed demo_state "y") :=
  ⟨(C7_visible_subset_invariant demo_state "y" "type"
      (by exact List.Perm.refl _)).2.2.1,
   (C7_visible_subset_invariant demo_state "y" "type"
      (by exact List.Perm.refl _)).1.2⟩

/-- Claim C8: when the load fails, the program continues with an empty
dataset and empty visible list, a degraded title, an error notification, and
a table showing no rows with the stats line "Showing 0 of 0 plugins". -/
theorem C8_load_failure_degrades (err : String) :
    (on_mount init_state (Except.error err)).plugins = [] ∧
    (on_mount init_state (Except.error err)).filtered_plugins = [] ∧
    (on_mount init_state (Except.error err)).title =
      "Plugin Viewer - Error loading data" ∧
    (on_mount init_state (Except.error err)).notifications =
      ["Error loading plugins: " ++ err] ∧
    (on_mount init_state (Except.error err)).stats = "Showing 0 of 0 plugins" ∧
    (on_mount init_state (Except.error err)).table_rows = [] := by
  refine ⟨rfl, rfl, rfl, rfl, ?_, rfl⟩
  show stats_line 0 0 = "Showing 0 of 0 plugins"
  decide

/-- Reading any field of a record whose absent fields have been replaced by
empty strings gives the same value as reading the original record. -/
theorem get_fill_missing (p : Plugin) (f : String) :
    (fill_missing p).get f = p.get f := by
  unfold Plugin.get Plugin.lookup fill_missing
  split_ifs <;> simp

/-- Claim C9: filter, sort and render are total over records with missing
fields: an absent field reads as the empty string, and replacing absent
fields by empty strings changes neither the sort key, the searchable text,
nor the rendered row. -/
theorem C9_missing_fields_read_empty (p : Plugin) (k : String) :
    (∀ f : String, p.lookup f = none → p.get f = "") ∧
    get_sort_value k (fill_missing p) = get_sort_value k p ∧
    searchable_text (fill_missing p) = searchable_text p ∧
    render_row (fill_missing p) = render_row p := by
  refine ⟨?_, ?_, ?_, ?_⟩
  · intro f h
    simp [Plugin.get, h]
  · simp [get_sort_value, get_fill_missing]
  · simp [searchable_text, fill_missing]
  · simp [render_row, get_fill_missing]

/-- Witness for C9 at the record with no "Description" field. -/
theorem C9_missing_fields_read_empty_witness :
    Plugin.get vstSynth "Description" = "" ∧
    searchable_text (fill_missing vstSynth) = searchable_text vstSynth :=
  ⟨(C9_missing_fields_read_empty vstSynth "name").1 "Description" rfl,
   (C9_missing_fields_read_empty vstSynth "name").2.2.1⟩

/-- Claim C10: any internal sort key outside the five recognized ones makes
`get_sort_value` fall back to the Name field, and any unrecognized column
selection key likewise ends with the sort key "name". -/
theorem C10_unknown_key_falls_back_to_name (k ck : String) (p : Plugin)
    (s : AppState)
    (hk : k ≠ "type" ∧ k ≠ "name" ∧ k ≠ "manufacturer" ∧
      k ≠ "description" ∧ k ≠ "investigate")
    (hck : ck ≠ "type" ∧ ck ≠ "name" ∧ ck ≠ "manufacturer" ∧
      ck ≠ "description" ∧ ck ≠ "investigate") :
    key_map k = "Name" ∧
    get_sort_value k p = str_lower (p.name.getD "") ∧
    get_sort_value k p = get_sort_value "name" p ∧
    (on_data_table_column_selected s ck).sort_key = "name" := by
  obtain ⟨h1, h2, h3, h4, h5⟩ := hk
  obtain ⟨g1, g2, g3, g4, g5⟩ := hck
  have hkm : key_map k = "Name" := by simp [key_map, h1, h2, h3, h4, h5]
  have hgm : key_map ck = "Name" := by simp [key_map, g1, g2, g3, g4, g5]
  have hn : remove_spaces (str_lower "Name") = "name" := rfl
  refine ⟨hkm, ?_, ?_, ?_⟩
  · unfold get_sort_value
    rw [hkm]
    simp [Plugin.get, Plugin.lookup]
  · unfold get_sort_value
    rw [hkm]
    rfl
  · rw [column_selected_eq, hgm, hn]
    by_cases hs : s.sort_key = "name"
    · rw [if_pos hs, sort_plugins_sort_key]
      exact hs
    · rw [if_neg hs, sort_plugins_sort_key]

/-- Witness for C10 at the keys "plugintype" and "invsestigate" (the very
keys the column handler produces for the Plugin Type and Investigate
columns). -/
theorem C10_unknown_key_falls_back_to_name_witness :
    key_map "plugintype" = "Name" ∧
    (on_data_table_column_selected demo_state "invsestigate").sort_key =
      "name" :=
  ⟨(C10_unknown_key_falls_back_to_name "plugintype" "invsestigate" betaX
      demo_state (by decide) (by decide)).1,
   (C10_unknown_key_falls_back_to_name "plugintype" "invsestigate" betaX
      demo_state (by decide) (by decide)).2.2.2⟩
